import Mathlib

/-!
Verification development for the RipeSense backend classification pipeline
(backend/services/classifier.py and backend/main.py), shallowly embedded in
Lean 4.  Floats are modelled as exact rationals; the numpy / PIL / stdlib
collaborators are modelled by executable Lean functions that follow their
documented behaviour where the repository depends on it.
-/

/-! ## Python exception model

The repository distinguishes exceptions only through the handler in
backend/main.py, which maps ValueError to HTTP 400 and every other
exception to HTTP 500.  The relevant class facts from the libraries:
binascii.Error is a subclass of ValueError, while PIL.UnidentifiedImageError
is a subclass of OSError (not of ValueError), and IndexError is not a
ValueError either. -/

inductive PyErr where
  /-- binascii.Error raised by base64.b64decode; a subclass of ValueError. -/
  | binasciiErr (msg : String)
  /-- PIL.UnidentifiedImageError raised by Image.open; a subclass of OSError. -/
  | unidentifiedImage
  /-- IndexError from indexing an empty list. -/
  | indexErr
  /-- The ValueError raised in classify when load_model returns False. -/
  | modelNotAvailable (pt : String)
  /-- AttributeError from calling .predict on None. -/
  | attributeErr
  deriving DecidableEq, Repr

/-- Whether the exception is (a subclass of) ValueError, which is the class
the handler in backend/main.py catches for 400 responses. -/
def PyErr.isValueError : PyErr → Bool
  | .binasciiErr _ => true
  | .modelNotAvailable _ => true
  | _ => false

/-- The str(e) text of each modelled exception, as produced by CPython / PIL
or by the raise sites in the repository; all are non-empty. -/
def PyErr.detail : PyErr → String
  | .binasciiErr msg => msg
  | .unidentifiedImage => "cannot identify image file"
  | .indexErr => "list index out of range"
  | .modelNotAvailable pt => "Model not available for produce type: " ++ pt
  | .attributeErr => "NoneType object has no attribute predict"

/-! ## Data-URL prefix stripping (decode_base64_image, lines 144-146)

The source runs: if a comma occurs in the string, replace the string by
base64_string.split(',')[1], that is by the SECOND field of the comma
split.  We model strings as lists of characters. -/

/-- Python str.split(',') on a list of characters. -/
def splitOnComma : List Char → List (List Char)
  | [] => [[]]
  | c :: cs =>
    if c = ',' then [] :: splitOnComma cs
    else
      match splitOnComma cs with
      | f :: rest => (c :: f) :: rest
      | [] => [[c]]

/-- The payload extraction performed by decode_base64_image: when the input
contains a comma, take field number 1 of the comma split, otherwise the
whole input. -/
def extractPayload (s : List Char) : List Char :=
  if ',' ∈ s then
    match splitOnComma s with
    | _ :: p :: _ => p
    | _ => s
  else s

/-- Everything after the first comma (the payload the spec sentence for the
codec describes). -/
def afterFirstComma : List Char → List Char
  | [] => []
  | c :: cs => if c = ',' then cs else afterFirstComma cs

/-- The prefix of a character list up to (excluding) its first comma. -/
def upToComma : List Char → List Char
  | [] => []
  | c :: cs => if c = ',' then [] else c :: upToComma cs

/-! ## base64.b64decode (validate=False)

CPython with validate=False drops every character outside the base64
alphabet, treats the remaining characters as sextet digits, and raises
binascii.Error when the digit count is 1 more than a multiple of 4 or when
a non-multiple-of-4 digit count is not completed by enough padding. -/

/-- The value of a standard-alphabet base64 digit, none for every other
character (such characters are discarded when validate=False). -/
def base64Digit (c : Char) : Option Nat :=
  if 'A' ≤ c ∧ c ≤ 'Z' then some (c.toNat - 'A'.toNat)
  else if 'a' ≤ c ∧ c ≤ 'z' then some (c.toNat - 'a'.toNat + 26)
  else if '0' ≤ c ∧ c ≤ '9' then some (c.toNat - '0'.toNat + 52)
  else if c = '+' then some 62
  else if c = '/' then some 63
  else none

/-- Reassemble bytes from base64 sextet digits: each full group of 4 digits
yields 3 bytes, a final group of 3 yields 2 bytes, a final group of 2
yields 1 byte. -/
def sextetsToBytes : List Nat → List Nat
  | a :: b :: c :: d :: rest =>
    (a * 4 + b / 16) :: ((b % 16) * 16 + c / 4) :: ((c % 4) * 64 + d) :: sextetsToBytes rest
  | [a, b, c] => [a * 4 + b / 16, (b % 16) * 16 + c / 4]
  | [a, b] => [a * 4 + b / 16]
  | _ => []

/-- Model of base64.b64decode with validate=False on a character list. -/
def b64decode (s : List Char) : Except PyErr (List Nat) :=
  let digits := s.filterMap base64Digit
  let pads := s.count '='
  if digits.length % 4 = 1 then
    .error (.binasciiErr "Invalid base64-encoded string: number of data characters cannot be 1 more than a multiple of 4")
  else if digits.length % 4 ≠ 0 ∧ pads < 4 - digits.length % 4 then
    .error (.binasciiErr "Incorrect padding")
  else
    .ok (sextetsToBytes digits)

/-! ## PIL image model -/

/-- A decoded raster image: pixel access yields an RGB triple of bytes.
PIL represents loaded pixel data with 8-bit channels, so each channel is a
value below 256 by construction. -/
structure RasterImage where
  width : Nat
  height : Nat
  px : Nat → Nat → Fin 256 × Fin 256 × Fin 256

/-- The 8-byte PNG signature, followed by the JPEG and GIF signatures used
for format identification. -/
def pngSignature : List Nat := [137, 80, 78, 71, 13, 10, 26, 10]

def jpegSignature : List Nat := [255, 216, 255]

def gifSignature : List Nat := [71, 73, 70, 56]

/-- Model of PIL Image.open on a byte string: identify the format by its
magic signature and produce a raster image; when no known signature
matches, raise UnidentifiedImageError (an OSError).  Header parsing and
pixel decoding are abstracted: the model exposes the identified bytes
through a fixed pixel function, which is all the pipeline observes through
the preprocessor. -/
def imageOpen (bs : List Nat) : Except PyErr RasterImage :=
  if pngSignature.isPrefixOf bs ∨ jpegSignature.isPrefixOf bs ∨ gifSignature.isPrefixOf bs then
    .ok { width := 1, height := 1,
          px := fun _ _ => (⟨bs.head?.getD 0 % 256, Nat.mod_lt _ (by norm_num)⟩, 0, 0) }
  else
    .error .unidentifiedImage

/-- decode_base64_image (classifier.py lines 135-151): strip an optional
data-URL prefix by taking the second field of a comma split, base64-decode
the payload, and open the bytes as an image. -/
def decode_base64_image (s : List Char) : Except PyErr RasterImage := do
  let bytes ← b64decode (extractPayload s)
  imageOpen bytes

/-! ## preprocess_image -/

/-- A numpy array modelled as an explicit shape plus a total function from
multi-indices to rational values. -/
structure NpArray where
  shape : List Nat
  data : List Nat → ℚ

/-- A resampling kernel: given the source image, produce the channel triple
of the output pixel at given coordinates.  PIL resize with any filter
(including LANCZOS) returns a uint8 image, so the codomain is bytes;
beyond that the kernel is arbitrary and the development quantifies over
it. -/
def ResampleKernel : Type := RasterImage → Nat → Nat → Fin 256 × Fin 256 × Fin 256

/-- Model of image.convert applied with mode RGB: our raster representation
is already 3-channel, so the conversion is the identity on it. -/
def convertRGB (img : RasterImage) : RasterImage := img

/-- Model of image.resize to a given size with a resampling kernel. -/
def resizeImage (k : ResampleKernel) (w h : Nat) (img : RasterImage) : RasterImage :=
  { width := w, height := h, px := fun x y => k img x y }

/-- Select one channel of an RGB triple by index 0, 1 or 2. -/
def channelOf (p : Fin 256 × Fin 256 × Fin 256) : Nat → Nat
  | 0 => p.1
  | 1 => p.2.1
  | _ => p.2.2

/-- Model of np.array(image, dtype=np.float32) / 255.0 on an RGB image:
shape (height, width, 3), entries the channel bytes divided by 255. -/
def npArrayOfImage (img : RasterImage) : NpArray :=
  { shape := [img.height, img.width, 3],
    data := fun ix =>
      match ix with
      | [y, x, c] => (channelOf (img.px x y) c : ℚ) / 255
      | _ => 0 }

/-- Model of np.expand_dims(a, axis=0): prepend a batch axis of extent 1. -/
def expandDims0 (a : NpArray) : NpArray :=
  { shape := 1 :: a.shape,
    data := fun ix =>
      match ix with
      | _ :: rest => a.data rest
      | [] => 0 }

/-- The model input size constant MODEL_INPUT_SIZE = (224, 224). -/
def MODEL_INPUT_SIZE : Nat × Nat := (224, 224)

/-- preprocess_image (classifier.py lines 114-133): convert to RGB, resize
to 224 by 224, scale bytes to rationals in the unit interval, and add a
batch dimension. -/
def preprocess_image (k : ResampleKernel) (img : RasterImage) : NpArray :=
  expandDims0 (npArrayOfImage
    (resizeImage k MODEL_INPUT_SIZE.1 MODEL_INPUT_SIZE.2 (convertRGB img)))

/-! ## Class tables -/

/-- AVOCADO_CLASSES: ordered (name, label) pairs indexed 0..4. -/
def AVOCADO_CLASSES : List (String × String) :=
  [("underripe", "Underripe"), ("breaking", "Breaking"),
   ("ripe_stage_1", "Ripe (Stage 1)"), ("ripe_stage_2", "Ripe (Stage 2)"),
   ("overripe", "Overripe")]

/-- BANANA_CLASSES: ordered (name, label) pairs indexed 0..2. -/
def BANANA_CLASSES : List (String × String) :=
  [("unripe", "Unripe"), ("ripe", "Ripe"), ("overripe", "Overripe")]

/-- self.class_mappings.get(produce_type, default): the table for the known
produce types, otherwise the supplied default. -/
def classMappingsGet (pt : String) (dflt : List (String × String)) : List (String × String) :=
  if pt = "avocado" then AVOCADO_CLASSES
  else if pt = "banana" then BANANA_CLASSES
  else dflt

/-! ## Model registry state -/

/-- A cached model handle: either the string marker "mock" or a loaded real
model, identified by a numeric id resolved through the predict
function. -/
inductive Handle where
  | mock
  | real (id : Nat)
  deriving DecidableEq, Repr

/-- Python dict assignment self.models[pt] = h on an association list. -/
def setEntry : List (String × Handle) → String → Handle → List (String × Handle)
  | [], k, v => [(k, v)]
  | (k2, v2) :: rest, k, v =>
    if k2 = k then (k, v) :: rest else (k2, v2) :: setEntry rest k v

/-- Python dict .get(pt) on an association list. -/
def lookupEntry : List (String × Handle) → String → Option Handle
  | [], _ => none
  | (k2, v2) :: rest, k => if k2 = k then some v2 else lookupEntry rest k

/-- The filesystem and TensorFlow collaborators of the registry: whether the
h5 or saved_model artifact path exists for a produce type, and the outcome
of tf.keras.models.load_model on the chosen artifact (an exception or a
real model id). -/
structure FsModel where
  h5Exists : String → Bool
  savedModelExists : String → Bool
  loadModelResult : String → Except Unit Nat

/-- The state of a ProduceClassifier instance together with its fixed
environment: the use_mock flag, the models cache, the TF_AVAILABLE module
constant, the filesystem, the behaviour of loaded real models (tensor to
output row, the first batch row of model.predict), and the PIL resampling
kernel used by preprocess_image. -/
structure ClfState where
  useMock : Bool
  models : List (String × Handle)
  tfAvailable : Bool
  fs : FsModel
  realPredict : Nat → NpArray → List ℚ
  resample : ResampleKernel

/-- load_model (classifier.py lines 62-112): returns the reported success
flag together with the updated state.  Every branch of the source returns
True. -/
def load_model (st : ClfState) (pt : String) : Bool × ClfState :=
  if st.useMock then
    (true, { st with models := setEntry st.models pt .mock })
  else if (lookupEntry st.models pt).isSome then
    (true, st)
  else if ¬ st.tfAvailable then
    (true, { st with useMock := true, models := setEntry st.models pt .mock })
  else if ¬ (st.fs.h5Exists pt || st.fs.savedModelExists pt) then
    (true, { st with models := setEntry st.models pt .mock })
  else
    match st.fs.loadModelResult pt with
    | .error _ => (true, { st with models := setEntry st.models pt .mock })
    | .ok id => (true, { st with models := setEntry st.models pt (.real id) })

/-! ## Mock prediction -/

/-- The random draws consumed by one _mock_predict call: the per-class
uniform draws of np.random.random, the dominant index from
random.randint(0, num_classes - 1), and the dominant confidence from
random.uniform(0.7, 0.95). -/
structure MockDraws where
  raws : Nat → ℚ
  dominantIdx : Nat
  dominantVal : ℚ

/-- The ranges the Python random sources guarantee for a draw record used
with n classes: raws in [0, 1), dominantIdx in [0, n), dominantVal in
[0.7, 0.95]. -/
def DrawsValid (n : Nat) (d : MockDraws) : Prop :=
  (∀ i < n, 0 ≤ d.raws i ∧ d.raws i < 1) ∧
  d.dominantIdx < n ∧
  7/10 ≤ d.dominantVal ∧ d.dominantVal ≤ 19/20

instance (n : Nat) (d : MockDraws) : Decidable (DrawsValid n d) := by
  unfold DrawsValid; infer_instance

/-- _mock_predict (classifier.py lines 153-175): the class count comes from
class_mappings.get(produce_type, AVOCADO_CLASSES); draw one uniform value
per class, overwrite the dominant index with the dominant draw, then
divide the whole vector by its sum. -/
def mock_predict (pt : String) (d : MockDraws) : List ℚ :=
  let numClasses := (classMappingsGet pt AVOCADO_CLASSES).length
  let preds := ((List.range numClasses).map d.raws).set d.dominantIdx d.dominantVal
  let s := preds.sum
  preds.map (· / s)

/-! ## Response building and classify -/

/-- One entry of the all_predictions list.  The idx field records the
position the confidence had in the probability vector (the enumerate
index); it is carried to state the stability of the sort and is not a key
of the Python dict. -/
structure PredItem where
  idx : Nat
  class_name : String
  class_label : String
  confidence : ℚ
  deriving DecidableEq, Repr

/-- The prediction item built for index idx: class_mapping.get(idx,
placeholder) with the synthesized placeholder name and label. -/
def mkPredItem (mapping : List (String × String)) (i : Nat) (c : ℚ) : PredItem :=
  match mapping.get? i with
  | some (n, l) => { idx := i, class_name := n, class_label := l, confidence := c }
  | none => { idx := i, class_name := "class_" ++ toString i,
              class_label := "Class " ++ toString i, confidence := c }

/-- Python list.sort(key=confidence, reverse=True) is a stable descending
sort; modelled by stable insertion: an element is placed before the first
element whose confidence is not larger. -/
def insertByConf (x : PredItem) : List PredItem → List PredItem
  | [] => [x]
  | y :: ys =>
    if y.confidence ≤ x.confidence then x :: y :: ys else y :: insertByConf x ys

/-- Stable sort of prediction items by descending confidence. -/
def sortByConfDesc : List PredItem → List PredItem
  | [] => []
  | x :: xs => insertByConf x (sortByConfDesc xs)

/-- The classification result dictionary returned by classify. -/
structure ClfResult where
  success : Bool
  produce_type : String
  predicted_class : String
  predicted_label : String
  confidence : ℚ
  all_predictions : List PredItem
  deriving DecidableEq, Repr

/-- The response-building tail of classify (classifier.py lines 208-234):
label each confidence with class_mappings.get(produce_type, empty), sort
by descending confidence, and take all_predictions[0] as the summary (an
IndexError on an empty vector). -/
def build_response (pt : String) (predictions : List ℚ) : Except PyErr ClfResult :=
  let mapping := classMappingsGet pt []
  let allPreds := sortByConfDesc
    (predictions.enum.map fun p => mkPredItem mapping p.1 p.2)
  match allPreds with
  | [] => .error .indexErr
  | top :: rest =>
    .ok { success := true, produce_type := pt,
          predicted_class := top.class_name, predicted_label := top.class_label,
          confidence := top.confidence, all_predictions := top :: rest }

/-- classify (classifier.py lines 177-234): ensure the model is loaded,
decode and preprocess the image, dispatch to the mock or real predictor,
and build the response.  The random draws for a potential mock prediction
are passed explicitly. -/
def classify (st : ClfState) (imageBase64 : List Char) (pt : String) (d : MockDraws) :
    Except PyErr ClfResult × ClfState :=
  let (ok, st1) := load_model st pt
  if ¬ ok then
    (.error (.modelNotAvailable pt), st1)
  else
    match decode_base64_image imageBase64 with
    | .error e => (.error e, st1)
    | .ok image =>
      let inputData := preprocess_image st1.resample image
      let model := lookupEntry st1.models pt
      let predictions : Except PyErr (List ℚ) :=
        if model = some .mock ∨ ¬ st1.tfAvailable then
          .ok (mock_predict pt d)
        else
          match model with
          | some (.real id) => .ok (st1.realPredict id inputData)
          | _ => .error .attributeErr
      match predictions with
      | .error e => (.error e, st1)
      | .ok preds => (build_response pt preds, st1)

/-! ## HTTP endpoint (backend/main.py classify_produce) -/

/-- A response of the endpoint: the HTTP status and, for errors, the detail
string of the raised HTTPException. -/
structure HttpResponse where
  status : Nat
  detail : String
  deriving DecidableEq, Repr

/-- classify_produce (main.py lines 75-98): a successful classify returns
the result with status 200; a ValueError maps to 400 with str(e); any
other exception maps to 500 with a prefixed message. -/
def classify_produce (st : ClfState) (imageBase64 : List Char) (pt : String)
    (d : MockDraws) : HttpResponse :=
  match (classify st imageBase64 pt d).1 with
  | .ok _ => { status := 200, detail := "" }
  | .error e =>
    if e.isValueError then { status := 400, detail := e.detail }
    else { status := 500, detail := "Classification failed: " ++ e.detail }

deriving instance DecidableEq for Except

/-- The sortedness-with-stability relation the response list is claimed to
satisfy between any earlier and any later entry: confidence never
increases, and equal confidences keep the original enumerate order. -/
def sortedRel (p q : PredItem) : Prop :=
  q.confidence ≤ p.confidence ∧ (p.confidence = q.confidence → p.idx < q.idx)

instance : DecidableRel sortedRel := fun p q => by
  unfold sortedRel; infer_instance

/-- Whether a classify outcome is a result dictionary with success True. -/
def resultSuccess : Except PyErr ClfResult → Bool
  | .ok r => r.success
  | .error _ => false

/-- The raised exception of a pipeline outcome, if any. -/
def errOf {α : Type} : Except PyErr α → Option PyErr
  | .error e => some e
  | .ok _ => none

/-- The property claimed of every mock prediction vector: it sums to 1
within 1e-6 and contains exactly one value inside [0.70, 0.95], that value
being the maximum of the vector. -/
def mockVectorClaim (v : List ℚ) : Prop :=
  |v.sum - 1| ≤ 1/1000000 ∧
  v.countP (fun x => decide (7/10 ≤ x ∧ x ≤ 19/20)) = 1 ∧
  ∀ x ∈ v, (7/10 ≤ x ∧ x ≤ 19/20) → ∀ y ∈ v, y ≤ x

instance (v : List ℚ) : Decidable (mockVectorClaim v) := by
  unfold mockVectorClaim; infer_instance

/-! ## Concrete instances used to witness the theorems -/

/-- A concrete resampling kernel: every output pixel black. -/
def kZero : ResampleKernel := fun _ _ _ => (0, 0, 0)

/-- A concrete raster image. -/
def imgZero : RasterImage := { width := 3, height := 2, px := fun _ _ => (7, 0, 0) }

/-- A filesystem with no model artifacts. -/
def fsNone : FsModel := ⟨fun _ => false, fun _ => false, fun _ => .error ()⟩

/-- A filesystem where the h5 artifact exists but loading it raises. -/
def fsRaising : FsModel := ⟨fun _ => true, fun _ => false, fun _ => .error ()⟩

/-- A classifier state in mock mode (use_mock True), the development
default of the repository. -/
def mockState : ClfState :=
  { useMock := true, models := [], tfAvailable := true, fs := fsNone,
    realPredict := fun _ _ => [], resample := kZero }

/-- A classifier state headed for the loading-failure branch: mock mode
off, TensorFlow available, an artifact present whose load raises. -/
def raisingState : ClfState :=
  { useMock := false, models := [], tfAvailable := true, fs := fsRaising,
    realPredict := fun _ _ => [], resample := kZero }

/-- A classifier state holding a loaded real model for avocado whose
output vector has length 7, disagreeing with the 5-entry avocado class
table. -/
def mismatchState : ClfState :=
  { useMock := false, models := [("avocado", .real 0)], tfAvailable := true,
    fs := ⟨fun _ => true, fun _ => false, fun _ => .ok 0⟩,
    realPredict := fun _ _ => [1/2, 1/8, 1/8, 1/16, 1/16, 1/32, 1/32],
    resample := kZero }

/-- A concrete numpy array (empty shape, zero data), used to exhibit the
output length of a concrete real-model predict function. -/
def npZero : NpArray := { shape := [], data := fun _ => 0 }

/-- Concrete mock draws: raws 0.1, 0.2, 0.3, 0.4, 0.5, dominant index 2,
dominant value 0.75. -/
def d0 : MockDraws := ⟨fun i => (1 + i : ℚ)/10, 2, 3/4⟩

/-- Mock draws on which the renormalized vector has no value in
[0.70, 0.95]: four raws of 0.9 overwhelm a dominant draw of 0.7. -/
def dFlat : MockDraws := ⟨fun i => if i < 4 then 9/10 else 1/2, 4, 7/10⟩

/-- The base64 encoding of the 8 PNG signature bytes; the image-open model
identifies it as a PNG. -/
def pngB64 : List Char := "iVBORw0KGgo=".data

/-- The base64 encoding of the ASCII bytes of hello, which no image format
matches. -/
def helloB64 : List Char := "aGVsbG8=".data

/-! ## Helper lemmas: cache, load_model -/

theorem lookupEntry_setEntry_self (l : List (String × Handle)) (k : String) (v : Handle) :
    lookupEntry (setEntry l k v) k = some v := by
  induction l with
  | nil => simp [setEntry, lookupEntry]
  | cons hd tl ih =>
    obtain ⟨k2, v2⟩ := hd
    by_cases hk : k2 = k
    · simp [setEntry, hk, lookupEntry]
    · simp [setEntry, hk, lookupEntry, ih]

theorem load_model_returns_true (st : ClfState) (pt : String) :
    (load_model st pt).1 = true := by
  unfold load_model
  split_ifs <;> try rfl
  cases hres : st.fs.loadModelResult pt <;> simp

theorem load_model_env (st : ClfState) (pt : String) :
    (load_model st pt).2.tfAvailable = st.tfAvailable ∧
    (load_model st pt).2.realPredict = st.realPredict ∧
    (load_model st pt).2.resample = st.resample ∧
    (load_model st pt).2.fs = st.fs := by
  unfold load_model
  split_ifs <;> try exact ⟨rfl, rfl, rfl, rfl⟩
  cases hres : st.fs.loadModelResult pt <;> exact ⟨rfl, rfl, rfl, rfl⟩

/-- After load_model, the cache always holds a handle for the requested
produce type. -/
theorem load_model_caches (st : ClfState) (pt : String) :
    ∃ h, lookupEntry (load_model st pt).2.models pt = some h := by
  unfold load_model
  by_cases h1 : st.useMock
  · exact ⟨.mock, by simp [h1, lookupEntry_setEntry_self]⟩
  · by_cases h2 : (lookupEntry st.models pt).isSome
    · obtain ⟨h, hh⟩ := Option.isSome_iff_exists.mp h2
      exact ⟨h, by simp [h1, h2, hh]⟩
    · by_cases h3 : st.tfAvailable
      · by_cases h4 : (st.fs.h5Exists pt || st.fs.savedModelExists pt)
        · cases hres : st.fs.loadModelResult pt with
          | error e =>
            exact ⟨.mock, by simp [h1, h2, h3, h4, hres, lookupEntry_setEntry_self]⟩
          | ok id =>
            exact ⟨.real id, by simp [h1, h2, h3, h4, hres, lookupEntry_setEntry_self]⟩
        · exact ⟨.mock, by simp [h1, h2, h3, h4, lookupEntry_setEntry_self]⟩
      · exact ⟨.mock, by simp [h1, h2, h3, lookupEntry_setEntry_self]⟩

/-! ## Helper lemmas: the stable descending sort -/

theorem mem_insertByConf {z x : PredItem} {l : List PredItem} :
    z ∈ insertByConf x l ↔ z = x ∨ z ∈ l := by
  induction l with
  | nil => simp [insertByConf]
  | cons y ys ih =>
    by_cases hcmp : y.confidence ≤ x.confidence
    · simp [insertByConf, hcmp]
    · simp [insertByConf, hcmp, ih]
      tauto

theorem insertByConf_perm (x : PredItem) (l : List PredItem) :
    (insertByConf x l).Perm (x :: l) := by
  induction l with
  | nil => simp [insertByConf]
  | cons y ys ih =>
    by_cases hcmp : y.confidence ≤ x.confidence
    · simp [insertByConf, hcmp]
    · rw [insertByConf, if_neg hcmp]
      exact (ih.cons y).trans (List.Perm.swap x y ys)

theorem sortByConfDesc_perm (l : List PredItem) : (sortByConfDesc l).Perm l := by
  induction l with
  | nil => simp [sortByConfDesc]
  | cons x xs ih =>
    exact (insertByConf_perm x (sortByConfDesc xs)).trans (ih.cons x)

theorem insertByConf_pairwise (x : PredItem) (l : List PredItem)
    (hl : l.Pairwise sortedRel) (hx : ∀ y ∈ l, x.idx < y.idx) :
    (insertByConf x l).Pairwise sortedRel := by
  induction l with
  | nil => simp [insertByConf, List.Pairwise.nil]
  | cons y ys ih =>
    rw [List.pairwise_cons] at hl
    obtain ⟨hy, hys⟩ := hl
    by_cases hcmp : y.confidence ≤ x.confidence
    · rw [insertByConf, if_pos hcmp]
      refine List.Pairwise.cons ?_ (List.Pairwise.cons hy hys)
      intro z hz
      rcases List.mem_cons.mp hz with rfl | hz2
      · exact ⟨hcmp, fun _ => hx _ (List.mem_cons_self _ _)⟩
      · exact ⟨(hy z hz2).1.trans hcmp, fun _ => hx _ (List.mem_cons_of_mem _ hz2)⟩
    · rw [insertByConf, if_neg hcmp]
      refine List.Pairwise.cons ?_ (ih hys fun y2 hy2 => hx _ (List.mem_cons_of_mem _ hy2))
      intro z hz
      rcases mem_insertByConf.mp hz with rfl | hz2
      · have hlt : z.confidence < y.confidence := lt_of_not_le hcmp
        exact ⟨le_of_lt hlt, fun h => absurd h (ne_of_gt hlt)⟩
      · exact hy z hz2

theorem sortByConfDesc_pairwise (l : List PredItem)
    (hl : l.Pairwise fun p q => p.idx < q.idx) :
    (sortByConfDesc l).Pairwise sortedRel := by
  induction l with
  | nil => simp [sortByConfDesc, List.Pairwise.nil]
  | cons x xs ih =>
    rw [List.pairwise_cons] at hl
    exact insertByConf_pairwise x _ (ih hl.2)
      fun y hy => hl.1 y ((sortByConfDesc_perm xs).mem_iff.mp hy)

theorem mkPredItem_idx (m : List (String × String)) (i : Nat) (c : ℚ) :
    (mkPredItem m i c).idx = i := by
  unfold mkPredItem
  cases m.get? i with
  | none => rfl
  | some p => cases p; rfl

theorem mkPredItem_conf (m : List (String × String)) (i : Nat) (c : ℚ) :
    (mkPredItem m i c).confidence = c := by
  unfold mkPredItem
  cases m.get? i with
  | none => rfl
  | some p => cases p; rfl

theorem enumFrom_pairwise_fst (l : List ℚ) (n : Nat) :
    (l.enumFrom n).Pairwise fun a b => a.1 < b.1 := by
  induction l generalizing n with
  | nil => simp
  | cons x xs ih =>
    rw [List.enumFrom]
    refine List.Pairwise.cons ?_ (ih (n + 1))
    intro y hy
    obtain ⟨y1, y2⟩ := y
    have := (List.mem_enumFrom hy).1
    omega

theorem items_pairwise_idx (m : List (String × String)) (preds : List ℚ) :
    (preds.enum.map fun p => mkPredItem m p.1 p.2).Pairwise
      fun p q => p.idx < q.idx := by
  rw [List.pairwise_map]
  have h := enumFrom_pairwise_fst preds 0
  refine h.imp ?_
  intro a b hab
  rwa [mkPredItem_idx, mkPredItem_idx]

theorem build_response_eq (pt : String) (preds : List ℚ) (h : preds ≠ []) :
    ∃ top rest,
      sortByConfDesc (preds.enum.map fun p =>
        mkPredItem (classMappingsGet pt []) p.1 p.2) = top :: rest ∧
      build_response pt preds =
        .ok { success := true, produce_type := pt, predicted_class := top.class_name,
              predicted_label := top.class_label, confidence := top.confidence,
              all_predictions := top :: rest } := by
  have hlen : (sortByConfDesc (preds.enum.map fun p =>
      mkPredItem (classMappingsGet pt []) p.1 p.2)).length = preds.length := by
    rw [(sortByConfDesc_perm _).length_eq, List.length_map, List.enum_length]
  cases hsort : sortByConfDesc (preds.enum.map fun p =>
      mkPredItem (classMappingsGet pt []) p.1 p.2) with
  | nil =>
    rw [hsort] at hlen
    simp at hlen
    exact absurd (List.length_eq_zero.mp hlen.symm) h
  | cons top rest =>
    refine ⟨top, rest, rfl, ?_⟩
    unfold build_response
    dsimp only
    rw [hsort]

/-! ## Helper lemmas: mock prediction -/

theorem sum_map_div (l : List ℚ) (s : ℚ) : (l.map (· / s)).sum = l.sum / s := by
  induction l with
  | nil => simp
  | cons x xs ih => simp [ih, add_div]

theorem classMappingsGet_length_pos (pt : String) :
    0 < (classMappingsGet pt AVOCADO_CLASSES).length := by
  unfold classMappingsGet
  split_ifs <;> simp [AVOCADO_CLASSES, BANANA_CLASSES]

theorem mock_predict_spec (pt : String) (d : MockDraws)
    (hd : DrawsValid (classMappingsGet pt AVOCADO_CLASSES).length d) :
    (mock_predict pt d).length = (classMappingsGet pt AVOCADO_CLASSES).length ∧
    (mock_predict pt d).sum = 1 ∧
    ∀ x ∈ mock_predict pt d, 0 ≤ x ∧ x ≤ 1 := by
  obtain ⟨hraws, hidx, hlo, hhi⟩ := hd
  unfold mock_predict
  dsimp only
  refine ⟨by simp, ?_, ?_⟩ <;>
  · have hlenpre : (((List.range (classMappingsGet pt AVOCADO_CLASSES).length).map
        d.raws).set d.dominantIdx d.dominantVal).length =
        (classMappingsGet pt AVOCADO_CLASSES).length := by simp
    have hnonneg : ∀ x ∈ ((List.range (classMappingsGet pt AVOCADO_CLASSES).length).map
        d.raws).set d.dominantIdx d.dominantVal, 0 ≤ x := by
      intro x hx
      rcases List.mem_or_eq_of_mem_set hx with hmem | rfl
      · obtain ⟨i, hi, rfl⟩ := List.mem_map.mp hmem
        exact (hraws i (List.mem_range.mp hi)).1
      · linarith
    have hdommem : d.dominantVal ∈ ((List.range (classMappingsGet pt AVOCADO_CLASSES).length).map
        d.raws).set d.dominantIdx d.dominantVal := by
      have hbound : d.dominantIdx <
          ((((List.range (classMappingsGet pt AVOCADO_CLASSES).length).map
            d.raws)).set d.dominantIdx d.dominantVal).length := by
        rw [hlenpre]; exact hidx
      have heq := List.getElem_set_self hbound
      have hmem := List.getElem_mem hbound
      rwa [heq] at hmem
    have hsumpos : 0 < (((List.range (classMappingsGet pt AVOCADO_CLASSES).length).map
        d.raws).set d.dominantIdx d.dominantVal).sum := by
      have hchain := List.single_le_sum hnonneg _ hdommem
      linarith
    first
    | · rw [sum_map_div]
        exact div_self (ne_of_gt hsumpos)
    | · intro x hx
        obtain ⟨p, hp, rfl⟩ := List.mem_map.mp hx
        constructor
        · exact div_nonneg (hnonneg p hp) (le_of_lt hsumpos)
        · rw [div_le_one hsumpos]
          exact List.single_le_sum hnonneg _ hp

/-! ## Helper lemmas: comma splitting -/

theorem splitOnComma_eq (s : List Char) :
    splitOnComma s = upToComma s ::
      (if ',' ∈ s then splitOnComma (afterFirstComma s) else []) := by
  induction s with
  | nil => simp [splitOnComma, upToComma]
  | cons c cs ih =>
    by_cases hc : c = ','
    · subst hc
      simp [splitOnComma, upToComma, afterFirstComma]
    · rw [splitOnComma, if_neg hc, ih]
      have hmem : (',' ∈ c :: cs) ↔ (',' ∈ cs) :=
        ⟨fun h => (List.mem_cons.mp h).resolve_left fun h1 => hc h1.symm,
         fun h => List.mem_cons_of_mem _ h⟩
      by_cases hm : ',' ∈ cs
      · simp only [upToComma, afterFirstComma, if_neg hc, hmem, if_pos hm]
      · simp only [upToComma, afterFirstComma, if_neg hc, hmem, if_neg hm]

/-! ## Helper lemmas: error shapes and classify paths -/

theorem b64decode_error_shape (s : List Char) (e : PyErr)
    (h : b64decode s = .error e) :
    e.isValueError = true ∧ e.detail ≠ "" := by
  unfold b64decode at h
  dsimp only at h
  split_ifs at h
  · cases h
    exact ⟨rfl, by decide⟩
  · cases h
    exact ⟨rfl, by decide⟩

theorem decode_error_shape (s : List Char) (e : PyErr)
    (h : decode_base64_image s = .error e) :
    (∃ m, e = .binasciiErr m) ∨ e = .unidentifiedImage := by
  unfold decode_base64_image at h
  cases hb : b64decode (extractPayload s) with
  | error eb =>
    rw [hb] at h
    cases h
    have := b64decode_error_shape _ _ hb
    unfold b64decode at hb
    dsimp only at hb
    split_ifs at hb
    · cases hb; exact .inl ⟨_, rfl⟩
    · cases hb; exact .inl ⟨_, rfl⟩
  | ok bytes =>
    rw [hb] at h
    replace h : imageOpen bytes = .error e := h
    unfold imageOpen at h
    split_ifs at h
    cases h
    exact .inr rfl

theorem load_model_pair (st : ClfState) (pt : String) :
    load_model st pt = (true, (load_model st pt).2) := by
  rw [← load_model_returns_true st pt]

theorem classify_decode_err (st : ClfState) (img : List Char) (pt : String)
    (d : MockDraws) (e : PyErr) (hdec : decode_base64_image img = .error e) :
    (classify st img pt d).1 = .error e := by
  unfold classify
  rw [load_model_pair st pt]
  dsimp only
  rw [hdec]
  simp

theorem classify_mock_path (st : ClfState) (img : List Char) (pt : String)
    (d : MockDraws) (image : RasterImage)
    (hmock : lookupEntry (load_model st pt).2.models pt = some .mock)
    (hdec : decode_base64_image img = .ok image) :
    (classify st img pt d).1 = build_response pt (mock_predict pt d) := by
  unfold classify
  rw [load_model_pair st pt]
  dsimp only
  rw [hdec]
  simp [hmock]

theorem classify_real_path (st : ClfState) (img : List Char) (pt : String)
    (d : MockDraws) (image : RasterImage) (id : Nat)
    (hreal : lookupEntry (load_model st pt).2.models pt = some (.real id))
    (htf : st.tfAvailable = true)
    (hdec : decode_base64_image img = .ok image) :
    (classify st img pt d).1 = build_response pt
      (st.realPredict id (preprocess_image st.resample image)) := by
  have henv := load_model_env st pt
  unfold classify
  rw [load_model_pair st pt]
  dsimp only
  rw [hdec]
  simp [hreal, henv.1, htf, henv.2.1, henv.2.2.1]

theorem mock_predict_length (pt : String) (d : MockDraws) :
    (mock_predict pt d).length = (classMappingsGet pt AVOCADO_CLASSES).length := by
  unfold mock_predict
  simp

theorem mock_predict_ne_nil (pt : String) (d : MockDraws) :
    mock_predict pt d ≠ [] := by
  have h1 := mock_predict_length pt d
  have h2 := classMappingsGet_length_pos pt
  intro hcontra
  rw [hcontra] at h1
  simp at h1
  omega

theorem classMappingsGet_unknown (pt : String) (dflt : List (String × String))
    (h1 : pt ≠ "avocado") (h2 : pt ≠ "banana") :
    classMappingsGet pt dflt = dflt := by
  unfold classMappingsGet
  rw [if_neg h1, if_neg h2]

theorem build_response_not_mna (pt : String) (preds : List ℚ) (s : String) :
    build_response pt preds ≠ .error (.modelNotAvailable s) := by
  unfold build_response
  dsimp only
  split <;> simp

theorem classify_not_mna (st : ClfState) (img : List Char) (pt : String)
    (d : MockDraws) (s : String) :
    (classify st img pt d).1 ≠ .error (.modelNotAvailable s) := by
  cases hdec : decode_base64_image img with
  | error e =>
    rw [classify_decode_err st img pt d e hdec]
    rcases decode_error_shape img e hdec with ⟨m, rfl⟩ | rfl <;> simp
  | ok image =>
    unfold classify
    rw [load_model_pair st pt]
    dsimp only
    rw [hdec, if_neg (show ¬ (¬ (true = true)) by simp)]
    dsimp only
    by_cases hif : lookupEntry (load_model st pt).2.models pt = some Handle.mock ∨
        ¬ (load_model st pt).2.tfAvailable = true
    · rw [if_pos hif]
      simpa using build_response_not_mna pt (mock_predict pt d) s
    · rw [if_neg hif]
      cases hm : lookupEntry (load_model st pt).2.models pt with
      | none => simp
      | some h =>
        cases h with
        | mock => simp
        | real id => simpa using build_response_not_mna pt _ s

theorem channelOf_lt (p : Fin 256 × Fin 256 × Fin 256) (c : Nat) :
    channelOf p c < 256 := by
  unfold channelOf
  split
  · exact p.1.isLt
  · exact p.2.1.isLt
  · exact p.2.2.isLt

/-! ## Claim theorems -/

/-- C2 counterexample: on the input a,b,c (two commas), the decoded payload
is b, the second comma field, not b,c, the substring after the first
comma; so the claim that everything after the first comma is decoded fails
for inputs with more than one comma. -/
theorem claim_C2_counterexample :
    ',' ∈ "a,b,c".data ∧
    extractPayload "a,b,c".data = "b".data ∧
    afterFirstComma "a,b,c".data = "b,c".data ∧
    extractPayload "a,b,c".data ≠ afterFirstComma "a,b,c".data := by
  decide

/-- C2 (amended): for every input to the image decoder containing at least
one comma, the base64 payload that gets decoded is the second field of the
comma split, that is the substring after the first comma truncated at the
next comma if one occurs; an input with no comma is decoded whole. -/
theorem claim_C2_payload_is_second_comma_field (s : List Char) :
    (',' ∈ s → extractPayload s = upToComma (afterFirstComma s)) ∧
    (',' ∉ s → extractPayload s = s) := by
  constructor
  · intro h
    unfold extractPayload
    rw [if_pos h, splitOnComma_eq s, if_pos h, splitOnComma_eq (afterFirstComma s)]
  · intro h
    unfold extractPayload
    rw [if_neg h]

/-- C2 witness: the amended statement evaluated on a data-URL-prefixed
input with a single comma, where the second field is everything after the
first comma. -/
theorem claim_C2_payload_witness :
    extractPayload "data:image/png;base64,iVBORw0KGgo=".data =
      upToComma (afterFirstComma "data:image/png;base64,iVBORw0KGgo=".data) :=
  (claim_C2_payload_is_second_comma_field _).1 (by decide)

/-- C7: load_model is idempotent per produce type: both calls report True,
and the cached handle for the produce type is unchanged by the second
call, so its mock-ness or real-ness is stable within a process. -/
theorem claim_C7_resolve_idempotent (st : ClfState) (pt : String) :
    (load_model st pt).1 = true ∧
    (load_model (load_model st pt).2 pt).1 = true ∧
    lookupEntry (load_model (load_model st pt).2 pt).2.models pt =
      lookupEntry (load_model st pt).2.models pt := by
  refine ⟨load_model_returns_true st pt, load_model_returns_true _ pt, ?_⟩
  by_cases h1 : st.useMock
  · simp [load_model, h1, lookupEntry_setEntry_self]
  · by_cases h2 : (lookupEntry st.models pt).isSome
    · simp [load_model, h1, h2]
    · by_cases h3 : st.tfAvailable
      · by_cases h4 : (st.fs.h5Exists pt || st.fs.savedModelExists pt)
        · cases hres : st.fs.loadModelResult pt with
          | error e =>
            simp [load_model, h1, h2, h3, h4, hres, lookupEntry_setEntry_self]
          | ok id =>
            simp [load_model, h1, h2, h3, h4, hres, lookupEntry_setEntry_self]
        · simp [load_model, h1, h2, h3, h4, lookupEntry_setEntry_self]
      · simp [load_model, h1, h2, h3, lookupEntry_setEntry_self]

/-- C9: load_model returns True on every path, for every produce type and
registry state, so the ValueError branch of classify reporting a missing
model is unreachable: no classify outcome is that error. -/
theorem claim_C9_load_always_true (st : ClfState) (pt : String)
    (img : List Char) (d : MockDraws) :
    (load_model st pt).1 = true ∧
    ∀ s, (classify st img pt d).1 ≠ .error (.modelNotAvailable s) :=
  ⟨load_model_returns_true st pt, fun s => classify_not_mna st img pt d s⟩

unseal Rat.add Rat.mul Rat.inv Rat.sub in
/-- C1 counterexample: with per-class draws 0.9, 0.9, 0.9, 0.9, 0.5,
dominant index 4 and dominant draw 0.7 (all within the ranges the random
sources guarantee), the renormalized mock vector is four times 9/43 and
once 7/43: it sums to 1 but contains no value in [0.70, 0.95] at all, so
the claimed property fails. -/
theorem claim_C1_counterexample :
    DrawsValid (classMappingsGet "avocado" AVOCADO_CLASSES).length dFlat ∧
    ¬ mockVectorClaim (mock_predict "avocado" dFlat) := by
  decide

/-- C1 (amended): for every produce type and draws within the ranges the
random sources guarantee, the mock vector has one entry per class, sums to
exactly 1 (so certainly to 1 within 1e-6), and every entry lies in [0, 1];
but after the final renormalization the dominant entry need not stay
inside [0.70, 0.95] nor remain the maximum. -/
theorem claim_C1_mock_vector_normalized (pt : String) (d : MockDraws)
    (hd : DrawsValid (classMappingsGet pt AVOCADO_CLASSES).length d) :
    (mock_predict pt d).length = (classMappingsGet pt AVOCADO_CLASSES).length ∧
    (mock_predict pt d).sum = 1 ∧
    ∀ x ∈ mock_predict pt d, 0 ≤ x ∧ x ≤ 1 :=
  mock_predict_spec pt d hd

unseal Rat.add Rat.mul Rat.inv Rat.sub in
/-- C1 witness: the amended statement applied to the banana class count
with concrete in-range draws. -/
theorem claim_C1_mock_vector_witness :
    (mock_predict "banana" d0).length =
      (classMappingsGet "banana" AVOCADO_CLASSES).length ∧
    (mock_predict "banana" d0).sum = 1 ∧
    ∀ x ∈ mock_predict "banana" d0, 0 ≤ x ∧ x ≤ 1 :=
  claim_C1_mock_vector_normalized "banana" d0 (by decide)

/-- C4: when loading the model artifact fails (mock mode off, TensorFlow
available, an artifact path exists, the load raises), load_model still
reports True, the registry caches the mock marker, and classify on that
state returns a result with success True for any decodable image. -/
theorem claim_C4_load_failure_mock_fallback (st : ClfState) (pt : String)
    (img : List Char) (d : MockDraws)
    (h1 : st.useMock = false) (h2 : lookupEntry st.models pt = none)
    (h3 : st.tfAvailable = true)
    (h4 : (st.fs.h5Exists pt || st.fs.savedModelExists pt) = true)
    (h5 : st.fs.loadModelResult pt = .error ())
    (hdec : (decode_base64_image img).isOk = true) :
    (load_model st pt).1 = true ∧
    lookupEntry (load_model st pt).2.models pt = some .mock ∧
    resultSuccess (classify st img pt d).1 = true := by
  have hcache : lookupEntry (load_model st pt).2.models pt = some .mock := by
    simp [load_model, h1, h2, h3, h4, h5, lookupEntry_setEntry_self]
  refine ⟨load_model_returns_true st pt, hcache, ?_⟩
  cases himg : decode_base64_image img with
  | error e => rw [himg] at hdec; cases hdec
  | ok image =>
    rw [classify_mock_path st img pt d image hcache himg]
    obtain ⟨top, rest, hs, hb⟩ := build_response_eq pt (mock_predict pt d)
      (mock_predict_ne_nil pt d)
    rw [hb]
    rfl

unseal Rat.add Rat.mul Rat.inv Rat.sub in
/-- C4 witness: a state whose avocado artifact exists but raises on load,
applied to a decodable PNG input. -/
theorem claim_C4_load_failure_witness :
    (load_model raisingState "avocado").1 = true ∧
    lookupEntry (load_model raisingState "avocado").2.models "avocado" = some .mock ∧
    resultSuccess (classify raisingState pngB64 "avocado" d0).1 = true :=
  claim_C4_load_failure_mock_fallback raisingState "avocado" pngB64 d0
    rfl rfl rfl rfl rfl (by decide)

/-- C6: for every non-empty probability vector and produce type, the built
all_predictions list of the result is pairwise sorted: confidences never
increase, and equal confidences keep their original enumerate order; the
summary fields equal the fields of the first element of that list. -/
theorem claim_C6_sorted_stable_top (pt : String) (preds : List ℚ)
    (h : preds ≠ []) :
    ∃ r top rest, build_response pt preds = .ok r ∧
      r.all_predictions = top :: rest ∧
      r.all_predictions.Pairwise sortedRel ∧
      r.predicted_class = top.class_name ∧
      r.predicted_label = top.class_label ∧
      r.confidence = top.confidence := by
  obtain ⟨top, rest, hs, hb⟩ := build_response_eq pt preds h
  refine ⟨_, top, rest, hb, rfl, ?_, rfl, rfl, rfl⟩
  show (top :: rest).Pairwise sortedRel
  rw [← hs]
  exact sortByConfDesc_pairwise _ (items_pairwise_idx _ _)

unseal Rat.add Rat.mul Rat.inv Rat.sub in
/-- C6 witness: the sortedness-with-stability statement evaluated on a
concrete vector with a duplicated confidence. -/
theorem claim_C6_sorted_stable_witness :
    ∃ r top rest, build_response "banana" [1/4, 1/2, 1/4] = .ok r ∧
      r.all_predictions = top :: rest ∧
      r.all_predictions.Pairwise sortedRel ∧
      r.predicted_class = top.class_name ∧
      r.predicted_label = top.class_label ∧
      r.confidence = top.confidence :=
  claim_C6_sorted_stable_top "banana" [1/4, 1/2, 1/4] (by decide)

/-- C10: for a produce type outside avocado and banana, classify on the
mock path still succeeds with exactly 5 predictions (the mock falls back
to the avocado class count) whose class names are the placeholders
class_0 through class_4 (the labeling table falls back to empty). -/
theorem claim_C10_unknown_type_five_placeholders (st : ClfState) (pt : String)
    (img : List Char) (d : MockDraws)
    (h1 : pt ≠ "avocado") (h2 : pt ≠ "banana")
    (hmock : lookupEntry (load_model st pt).2.models pt = some .mock)
    (hdec : (decode_base64_image img).isOk = true) :
    ∃ r, (classify st img pt d).1 = .ok r ∧ r.success = true ∧
      r.all_predictions.length = 5 ∧
      (r.all_predictions.map fun p => p.class_name).Perm
        ["class_0", "class_1", "class_2", "class_3", "class_4"] := by
  cases himg : decode_base64_image img with
  | error e => rw [himg] at hdec; cases hdec
  | ok image =>
    have hcl := classify_mock_path st img pt d image hmock himg
    have hlen5 : (mock_predict pt d).length = 5 := by
      rw [mock_predict_length, classMappingsGet_unknown pt _ h1 h2]
      rfl
    obtain ⟨top, rest, hs, hb⟩ := build_response_eq pt (mock_predict pt d)
      (mock_predict_ne_nil pt d)
    refine ⟨{ success := true, produce_type := pt, predicted_class := top.class_name,
              predicted_label := top.class_label, confidence := top.confidence,
              all_predictions := top :: rest }, ?_, rfl, ?_, ?_⟩
    · rw [hcl, hb]
    · show (top :: rest).length = 5
      rw [← hs, (sortByConfDesc_perm _).length_eq, List.length_map,
        List.enum_length, hlen5]
    · show ((top :: rest).map fun p => p.class_name).Perm _
      rw [← hs]
      refine ((sortByConfDesc_perm _).map fun p => p.class_name).trans ?_
      rw [classMappingsGet_unknown pt [] h1 h2, List.map_map]
      have hnames : ((fun p : PredItem => p.class_name) ∘ fun p : Nat × ℚ =>
          mkPredItem [] p.1 p.2) = fun p : Nat × ℚ => "class_" ++ toString p.1 := rfl
      rw [hnames]
      have hsplit : (mock_predict pt d).enum.map
            (fun p : Nat × ℚ => "class_" ++ toString p.1) =
          ((mock_predict pt d).enum.map Prod.fst).map
            (fun i => "class_" ++ toString i) := by
        rw [List.map_map]
        rfl
      rw [hsplit, List.enum_map_fst, hlen5]
      decide

unseal Rat.add Rat.mul Rat.inv Rat.sub in
/-- C10 witness: the statement applied to the produce type mango on the
default mock-mode state with a decodable PNG input and concrete draws. -/
theorem claim_C10_unknown_type_witness :
    ∃ r, (classify mockState pngB64 "mango" d0).1 = .ok r ∧ r.success = true ∧
      r.all_predictions.length = 5 ∧
      (r.all_predictions.map fun p => p.class_name).Perm
        ["class_0", "class_1", "class_2", "class_3", "class_4"] :=
  claim_C10_unknown_type_five_placeholders mockState "mango" pngB64 d0
    (by decide) (by decide) (by decide) (by decide)

unseal Rat.add Rat.mul Rat.inv Rat.sub in
/-- C3 counterexample: a state holding a real avocado model whose output
vector has length 7 while the avocado class table has length 5; classify
returns a success result and the endpoint answers 200, not a 500-class
configuration error. -/
theorem claim_C3_counterexample :
    (mismatchState.realPredict 0 npZero).length = 7 ∧
    AVOCADO_CLASSES.length = 5 ∧
    resultSuccess (classify mismatchState pngB64 "avocado" d0).1 = true ∧
    (classify_produce mismatchState pngB64 "avocado" d0).status = 200 ∧
    (classify_produce mismatchState pngB64 "avocado" d0).status ≠ 500 := by
  decide

/-- C3 (amended): classify performs no output-length check at all: for any
real-model handle whose (non-empty) output vector is produced, classify
returns a success result, regardless of whether the output length matches
the class table; no configuration error exists in the code. -/
theorem claim_C3_no_shape_check (st : ClfState) (pt : String) (img : List Char)
    (d : MockDraws) (id : Nat)
    (hreal : lookupEntry (load_model st pt).2.models pt = some (.real id))
    (htf : st.tfAvailable = true)
    (hdec : (decode_base64_image img).isOk = true)
    (hne : ∀ a, st.realPredict id a ≠ []) :
    resultSuccess (classify st img pt d).1 = true := by
  cases himg : decode_base64_image img with
  | error e => rw [himg] at hdec; cases hdec
  | ok image =>
    rw [classify_real_path st img pt d image id hreal htf himg]
    obtain ⟨top, rest, hs, hb⟩ := build_response_eq pt _ (hne _)
    rw [hb]
    rfl

unseal Rat.add Rat.mul Rat.inv Rat.sub in
/-- C3 witness: the amended statement applied to the concrete
length-mismatched real model. -/
theorem claim_C3_no_shape_check_witness :
    resultSuccess (classify mismatchState pngB64 "avocado" d0).1 = true :=
  claim_C3_no_shape_check mismatchState "avocado" pngB64 d0 0
    (by decide) rfl (by decide) (fun a => List.cons_ne_nil _ _)

/-- C5 counterexample: the input aGVsbG8= is valid base64 decoding to the
ASCII bytes of hello, which no image format recognizes; the raised
UnidentifiedImageError is an OSError, not a ValueError, so the endpoint
answers 500, contradicting the claim that such inputs always get a
400-class response. -/
theorem claim_C5_counterexample :
    b64decode (extractPayload helloB64) = .ok [104, 101, 108, 108, 111] ∧
    errOf (imageOpen [104, 101, 108, 108, 111]) = some .unidentifiedImage ∧
    errOf (decode_base64_image helloB64) = some .unidentifiedImage ∧
    PyErr.unidentifiedImage.isValueError = false ∧
    (classify_produce mockState helloB64 "avocado" d0).status = 500 ∧
    (classify_produce mockState helloB64 "avocado" d0).status ≠ 400 := by
  decide

/-- C5 (amended): when the payload is malformed base64 the raised
binascii.Error is a ValueError, so the endpoint answers 400 with a
non-empty detail; but when well-formed base64 decodes to unrecognizable
image bytes, the raised error is an OSError and the endpoint answers 500
(see the counterexample). -/
theorem claim_C5_bad_base64_gives_400 (st : ClfState) (img : List Char)
    (pt : String) (d : MockDraws) (e : PyErr)
    (h : b64decode (extractPayload img) = .error e) :
    e.isValueError = true ∧
    (classify_produce st img pt d).status = 400 ∧
    (classify_produce st img pt d).detail ≠ "" := by
  have hshape := b64decode_error_shape _ _ h
  have hdec : decode_base64_image img = .error e := by
    unfold decode_base64_image
    rw [h]
    rfl
  have hc := classify_decode_err st img pt d e hdec
  unfold classify_produce
  rw [hc]
  simp [hshape.1, hshape.2]

/-- C5 witness: the amended statement applied to the spec scenario input
not-base64!!, whose 9 base64 digits are 1 more than a multiple of 4. -/
theorem claim_C5_bad_base64_witness :
    (PyErr.binasciiErr "Invalid base64-encoded string: number of data characters cannot be 1 more than a multiple of 4").isValueError = true ∧
    (classify_produce mockState "not-base64!!".data "avocado" d0).status = 400 ∧
    (classify_produce mockState "not-base64!!".data "avocado" d0).detail ≠ "" :=
  claim_C5_bad_base64_gives_400 mockState "not-base64!!".data "avocado" d0
    (.binasciiErr "Invalid base64-encoded string: number of data characters cannot be 1 more than a multiple of 4")
    (by decide)

/-- C8: for every resampling kernel and decoded image, preprocess returns
a tensor of shape exactly (1, 224, 224, 3), and every in-bounds element,
being a channel byte divided by 255, lies in [0.0, 1.0]. -/
theorem claim_C8_preprocess_shape_range (k : ResampleKernel) (img : RasterImage) :
    (preprocess_image k img).shape = [1, 224, 224, 3] ∧
    ∀ b y x c : Nat, b < 1 → y < 224 → x < 224 → c < 3 →
      0 ≤ (preprocess_image k img).data [b, y, x, c] ∧
      (preprocess_image k img).data [b, y, x, c] ≤ 1 := by
  constructor
  · rfl
  · intro b y x c hb hy hx hc
    show 0 ≤ (channelOf (k (convertRGB img) x y) c : ℚ) / 255 ∧
      (channelOf (k (convertRGB img) x y) c : ℚ) / 255 ≤ 1
    have hlt : channelOf (k (convertRGB img) x y) c < 256 := channelOf_lt _ _
    constructor
    · exact div_nonneg (by positivity) (by norm_num)
    · rw [div_le_one (by norm_num : (0:ℚ) < 255)]
      have : (channelOf (k (convertRGB img) x y) c : ℚ) ≤ 255 := by
        exact_mod_cast Nat.le_of_lt_succ hlt
      exact this

/-- C8 witness: the statement applied to a concrete kernel, image and
in-bounds index. -/
theorem claim_C8_preprocess_witness :
    (preprocess_image kZero imgZero).shape = [1, 224, 224, 3] ∧
    (0 ≤ (preprocess_image kZero imgZero).data [0, 5, 7, 2] ∧
      (preprocess_image kZero imgZero).data [0, 5, 7, 2] ≤ 1) :=
  ⟨(claim_C8_preprocess_shape_range kZero imgZero).1,
   (claim_C8_preprocess_shape_range kZero imgZero).2 0 5 7 2
     (by decide) (by decide) (by decide) (by decide)⟩
